import Mathlib

/-!
Verification of the live-feed scheduling and fan-out subsystem of the
tvdatafeed repository: the `Consumer` worker (src/tvDatafeed/consumer.py),
the `Seis` subscription key, the `_SeisesAndTrigger` interval registry and
the `TvDatafeedLive` coordinator.

The `Consumer` class is embedded directly from src/tvDatafeed/consumer.py.
The files seis.py and datafeed.py (classes `Seis`, `TvDatafeedLive` and its
inner `_SeisesAndTrigger`) are imported by src/tvDatafeed/__init__.py but are
absent from the source tree, so those parts are modelled from the
specification, as marked on each definition.

Modelling conventions: OHLCV tables are compared by value and are modelled
as integer grids; datetimes are seconds since an epoch (`Nat`); a Python
`queue.Queue` is a list of items plus its `maxsize` (0 = infinite capacity,
as in Python); exceptions are `Except`; each method of a stateful object is
a pure function from the receiver state (plus the inputs the real method
reads from its environment, such as the wall clock or the outcome of an
external call) to the successor state and result.  Code that runs under a
per-object lock is modelled as an atomic step, so a sequence of calls from
any number of threads is a sequence of these atomic steps.
-/

namespace TvDF

/-- An OHLCV table compared by value: a grid of integer cells. -/
abbrev Table := List (List Int)

/-- The `Interval` enumeration from src/tvDatafeed/main.py lines 47-61. -/
inductive Interval where
  | in_1_minute
  | in_3_minute
  | in_5_minute
  | in_15_minute
  | in_30_minute
  | in_45_minute
  | in_1_hour
  | in_2_hour
  | in_3_hour
  | in_4_hour
  | in_daily
  | in_weekly
  | in_monthly
deriving DecidableEq

/-- The string value of each `Interval` member (main.py lines 48-60). -/
def Interval.value : Interval → String
  | .in_1_minute => "1"
  | .in_3_minute => "3"
  | .in_5_minute => "5"
  | .in_15_minute => "15"
  | .in_30_minute => "30"
  | .in_45_minute => "45"
  | .in_1_hour => "1H"
  | .in_2_hour => "2H"
  | .in_3_hour => "3H"
  | .in_4_hour => "4H"
  | .in_daily => "1D"
  | .in_weekly => "1W"
  | .in_monthly => "1M"

/-- The `interval_len` mapping of main.py lines 64-79: interval length in
seconds (one month approximated as 30 days, as in the source). -/
def interval_len : Interval → Nat
  | .in_1_minute => 60
  | .in_3_minute => 180
  | .in_5_minute => 300
  | .in_15_minute => 900
  | .in_30_minute => 1800
  | .in_45_minute => 2700
  | .in_1_hour => 3600
  | .in_2_hour => 7200
  | .in_3_hour => 10800
  | .in_4_hour => 14400
  | .in_daily => 86400
  | .in_weekly => 604800
  | .in_monthly => 2592000

/-- Modelled from the spec: the file seis.py (class `Seis`) is absent from
the source tree.  A subscription key holds the (symbol, exchange, interval)
triple and the last observed data snapshot used by `is_new_data`
(spec section 3, Subscription Key). -/
structure Seis where
  symbol : String
  exchange : String
  interval : Interval
  ohlcv : Option Table
deriving DecidableEq

/-- Modelled from the spec: `is_new_data(candidate_table)` of the absent
seis.py returns true on the first call (nothing seen yet) and afterwards
true iff the candidate differs by value from the stored snapshot; it always
replaces the stored snapshot with the candidate (spec sections 4.1 and 8). -/
def Seis.is_new_data (s : Seis) (t : Table) : Bool × Seis :=
  match s.ohlcv with
  | none => (true, { s with ohlcv := some t })
  | some prev => (decide (t ≠ prev), { s with ohlcv := some t })

/-- A user callback: invoked with (seis, data); may raise. -/
abbrev Callback := Seis → Table → Except String Unit

/-- The consumer inbox, a Python `queue.Queue`: `maxsize = 0` means infinite
capacity, otherwise the queue is full when it holds `maxsize` items.
Items are tables, where `none` is the stop sentinel (consumer.py line 37). -/
structure Inbox where
  maxsize : Nat
  items : List (Option Table)
deriving DecidableEq

/-- Whether the queue is full (a zero `maxsize` queue is never full). -/
def Inbox.isFull (b : Inbox) : Bool :=
  decide (0 < b.maxsize) && decide (b.maxsize ≤ b.items.length)

/-- `queue.Queue.put(item, timeout=...)`: on a full queue the timeout
elapses (no concurrent drain is possible within one atomic step) and
`queue.Full` is raised, modelled as the error case; otherwise the item is
appended. -/
def Inbox.putWithTimeout (b : Inbox) (x : Option Table) : Except Unit Inbox :=
  if b.isFull then Except.error () else Except.ok { b with items := b.items ++ [x] }

/-- The `Consumer` state (consumer.py lines 34-44): inbox `_buffer`,
stop flag `_stopped`, seis and callback references, and thread name.
The per-consumer `_lock` makes each method body an atomic step. -/
structure Consumer where
  buffer : Inbox
  stopped : Bool
  seis : Option Seis
  callback : Option Callback
  name : String

/-- `Consumer.__init__` (consumer.py lines 34-44): `queue.Queue()` is
constructed with no maxsize argument, hence `maxsize = 0` (infinite);
the consumer starts not stopped, holding its seis and callback. -/
def Consumer.init (s : Seis) (cb : Callback) : Consumer :=
  { buffer := { maxsize := 0, items := [] }
    stopped := false
    seis := some s
    callback := some cb
    name := "callback" ++ "_" ++ s.symbol ++ "_" ++ s.exchange ++ "_" ++ s.interval.value }

/-- Observable outcome of one `put` call: skipped because stopped, item
enqueued, or item dropped with a logged warning on `queue.Full`. -/
inductive PutOutcome where
  | ignoredStopped
  | enqueued
  | droppedFull
deriving DecidableEq

/-- `Consumer.put(data)` (consumer.py lines 128-143): under the lock, if the
consumer is stopped, return without touching the buffer; otherwise enqueue
with a 5 second timeout, catching `queue.Full` and logging a warning
(the data is dropped). -/
def Consumer.put (c : Consumer) (data : Table) : Consumer × PutOutcome :=
  if c.stopped then (c, .ignoredStopped)
  else
    match c.buffer.putWithTimeout (some data) with
    | Except.ok b => ({ c with buffer := b }, .enqueued)
    | Except.error _ => (c, .droppedFull)

/-- `Consumer.stop()` (consumer.py lines 165-178): under the lock, return if
already stopped, else set the stop flag; then enqueue the `None` sentinel
with a 1 second timeout, swallowing `queue.Full`. -/
def Consumer.stop (c : Consumer) : Consumer :=
  if c.stopped then c
  else
    let c1 : Consumer := { c with stopped := true }
    match c1.buffer.putWithTimeout none with
    | Except.ok b => { c1 with buffer := b }
    | Except.error _ => c1

/-- `Consumer.del_consumer(timeout)` (consumer.py lines 145-163): if the
seis reference is already cleared, succeed trivially; otherwise delegate to
`seis.del_consumer`, whose outcome (a result or a raised exception) is the
`detach` argument. -/
def Consumer.del_consumer (c : Consumer) (detach : Except String Bool) :
    Except String Bool :=
  match c.seis with
  | none => Except.ok true
  | some _ => detach

/-- Why the worker loop of `Consumer.run` ended (consumer.py lines 86-120):
the stop flag was observed, the `None` sentinel was dequeued, a cleared
seis or callback reference was observed, the user callback raised, or the
modelled finite inbox ran out of items (the real loop would keep polling). -/
inductive ExitReason where
  | stopFlag
  | sentinel
  | clearedRefs
  | callbackError
  | drained
deriving DecidableEq

/-- Events logged by the worker loop: the callback exception logged at
consumer.py line 115 and the cleanup failure logged at line 119. -/
inductive LogEvent where
  | callbackException
  | cleanupError
deriving DecidableEq

/-- Result of one worker-loop run: why it exited, what was logged, whether
detachment from the seis was attempted, and the items left in the inbox. -/
structure LoopOut where
  reason : ExitReason
  log : List LogEvent
  detachTried : Bool
  remaining : List (Option Table)
deriving DecidableEq

/-- The worker loop body of `Consumer.run` (consumer.py lines 89-120),
processing the inbox items in order: check the stop flag; dequeue; break on
the `None` sentinel; read the seis and callback references and break if
either is cleared; invoke the callback, and on an exception log it, attempt
`del_consumer` (logging any failure of the cleanup itself) and break. -/
def Consumer.runLoop (c : Consumer) (detach : Except String Bool)
    (items : List (Option Table)) : LoopOut :=
  if c.stopped then { reason := .stopFlag, log := [], detachTried := false, remaining := items }
  else
    match items with
    | [] => { reason := .drained, log := [], detachTried := false, remaining := [] }
    | none :: rest =>
        { reason := .sentinel, log := [], detachTried := false, remaining := rest }
    | some data :: rest =>
        match c.seis, c.callback with
        | some s, some cb =>
            match cb s data with
            | Except.ok _ => Consumer.runLoop c detach rest
            | Except.error _ =>
                match c.del_consumer detach with
                | Except.ok _ =>
                    { reason := .callbackError, log := [.callbackException],
                      detachTried := true, remaining := rest }
                | Except.error _ =>
                    { reason := .callbackError, log := [.callbackException, .cleanupError],
                      detachTried := true, remaining := rest }
        | _, _ =>
            { reason := .clearedRefs, log := [], detachTried := false, remaining := rest }

/-- `Consumer.run` (consumer.py lines 86-126): run the worker loop over the
inbox, then the `finally` block clears the seis and callback references and
sets the stop flag, on every exit path. -/
def Consumer.run (c : Consumer) (detach : Except String Bool) : Consumer × LoopOut :=
  let out := c.runLoop detach c.buffer.items
  ({ c with buffer := { c.buffer with items := out.remaining },
            seis := none, callback := none, stopped := true }, out)

/-- Modelled from the spec: one interval group of the absent
`_SeisesAndTrigger` registry (datafeed.py is not in the source tree) —
the interval-label, the keys registered under it, and the next due
datetime (spec section 4.3). -/
structure SATGroup where
  label : Interval
  seises : List Seis
  due : Nat
deriving DecidableEq

/-- Modelled from the spec: the `_SeisesAndTrigger` registry state — the
interval groups and the one-way quit flag (spec sections 4.3 and 3). -/
structure SAT where
  groups : List SATGroup
  trigger_quit : Bool
deriving DecidableEq

/-- All keys across all groups of the registry. -/
def SAT.allSeises (sat : SAT) : List Seis :=
  (sat.groups.map SATGroup.seises).flatten

/-- Whether a key matches a (symbol, exchange, interval) identity triple. -/
def Seis.matches_key (s : Seis) (sym exch : String) (iv : Interval) : Bool :=
  decide (s.symbol = sym) && decide (s.exchange = exch) && decide (s.interval = iv)

/-- Key equality of two `Seis` (all three identity attributes match). -/
def Seis.same_key (a b : Seis) : Bool :=
  a.matches_key b.symbol b.exchange b.interval

/-- Registry lookup of a key by its identity triple. -/
def SAT.find_seis (sat : SAT) (sym exch : String) (iv : Interval) : Option Seis :=
  sat.allSeises.find? (fun s => s.matches_key sym exch iv)

/-- Registry membership of a key. -/
def SAT.contains_seis (sat : SAT) (s : Seis) : Bool :=
  sat.allSeises.any (fun x => x.same_key s)

/-- Modelled from the spec: `append(seis, update_dt)` of the absent
`_SeisesAndTrigger` — adds the key to the group of its interval; a brand-new
group gets due time `update_dt + interval_len` (spec section 4.3). -/
def SAT.append (sat : SAT) (s : Seis) (update_dt : Nat) : SAT :=
  if sat.groups.any (fun g => decide (g.label = s.interval)) then
    { sat with groups := sat.groups.map (fun g =>
        if g.label = s.interval then { g with seises := g.seises ++ [s] } else g) }
  else
    { sat with groups := sat.groups ++
        [{ label := s.interval, seises := [s], due := update_dt + interval_len s.interval }] }

/-- Modelled from the spec: `discard(seis)` of the absent
`_SeisesAndTrigger` — removes the key from its group and drops the group
entry once empty (spec section 4.3). -/
def SAT.discard (sat : SAT) (s : Seis) : SAT :=
  { sat with groups := (sat.groups.map (fun g =>
      if g.label = s.interval
      then { g with seises := g.seises.filter (fun x => !(x.same_key s)) }
      else g)).filter (fun g => !g.seises.isEmpty) }

/-- The globally soonest due time over all groups (none when empty). -/
def SAT.next_trigger_dt (sat : SAT) : Option Nat :=
  (sat.groups.map SATGroup.due).min?

/-- Modelled from the spec: the value `wait()` of the absent
`_SeisesAndTrigger` has returned by wall-clock time `now`: false immediately
when the registry is empty or the quit flag is set (also when set from
another thread during the wait), true once the globally soonest due time
has passed, and `none` while the call is still blocked (spec section 4.3). -/
def SAT.wait (sat : SAT) (now : Nat) : Option Bool :=
  if sat.trigger_quit then some false
  else
    match sat.next_trigger_dt with
    | none => some false
    | some d => if d ≤ now then some true else none

/-- Modelled from the spec: `get_expired()` of the absent
`_SeisesAndTrigger` — returns the interval-labels whose due time has passed
as of `now` and advances each returned label due time by exactly one
interval length from its previous due time, not from `now`
(spec section 4.3). -/
def SAT.get_expired (sat : SAT) (now : Nat) : List Interval × SAT :=
  ((sat.groups.filter (fun g => decide (g.due ≤ now))).map SATGroup.label,
   { sat with groups := sat.groups.map (fun g =>
       if g.due ≤ now then { g with due := g.due + interval_len g.label } else g) })

/-- Modelled from the spec: `quit()` of the absent `_SeisesAndTrigger` —
sets the permanent quit flag (spec section 4.3). -/
def SAT.quit (sat : SAT) : SAT :=
  { sat with trigger_quit := true }

/-- Modelled from the spec: the `TvDatafeedLive` coordinator state of the
absent datafeed.py — the registry, the shutdown-in-progress flag, whether
the background polling thread is running, and a counter of historical
fetches performed (spec sections 3 and 4.4). -/
structure TvDatafeedLive where
  sat : SAT
  shutdown_in_progress : Bool
  main_thread : Bool
  fetch_count : Nat
deriving DecidableEq

/-- Result of `new_seis`: the Python `False` return, or a key. -/
inductive NewSeisResult where
  | fail : NewSeisResult
  | seis : Seis → NewSeisResult
deriving DecidableEq

/-- Modelled from the spec: `TvDatafeedLive.new_seis` of the absent
datafeed.py — validates via symbol search before anything else (raising on
an unlisted symbol); returns `False` on lock-acquisition timeout or when
shutdown is in progress, leaving the state unchanged; returns the already
registered instance for an equal key without fetching; otherwise seeds one
historical fetch (`seed`), appends the new key with `update_dt = now` and
ensures the polling thread runs (spec section 4.4).  `listed` is the search
outcome and `lockAcquired` the outcome of the bounded lock acquisition. -/
def TvDatafeedLive.new_seis (tvl : TvDatafeedLive) (sym exch : String)
    (iv : Interval) (listed lockAcquired : Bool) (now : Nat) (seed : Table) :
    Except String (TvDatafeedLive × NewSeisResult) :=
  if !listed then Except.error "not listed"
  else if !lockAcquired then Except.ok (tvl, .fail)
  else if tvl.shutdown_in_progress then Except.ok (tvl, .fail)
  else
    match tvl.sat.find_seis sym exch iv with
    | some s => Except.ok (tvl, .seis s)
    | none =>
        let s : Seis := { symbol := sym, exchange := exch, interval := iv, ohlcv := some seed }
        Except.ok ({ tvl with sat := tvl.sat.append s now,
                              fetch_count := tvl.fetch_count + 1,
                              main_thread := true }, .seis s)

/-- Modelled from the spec: `TvDatafeedLive.del_seis` of the absent
datafeed.py — `False` (state unchanged) on lock timeout or shutdown in
progress, a raised error for an unregistered key, otherwise the key is
discarded from the registry (spec section 4.4). -/
def TvDatafeedLive.del_seis (tvl : TvDatafeedLive) (s : Seis)
    (lockAcquired : Bool) : Except String (TvDatafeedLive × Bool) :=
  if !lockAcquired then Except.ok (tvl, false)
  else if tvl.shutdown_in_progress then Except.ok (tvl, false)
  else if !(tvl.sat.contains_seis s) then Except.error "not listed"
  else Except.ok ({ tvl with sat := tvl.sat.discard s }, true)

/-- Modelled from the spec: `TvDatafeedLive.new_consumer` of the absent
datafeed.py — `False` (state unchanged) on lock timeout or shutdown in
progress, a raised error for an unregistered key, otherwise a started
consumer bound to the key and callback (spec section 4.4). -/
def TvDatafeedLive.new_consumer (tvl : TvDatafeedLive) (s : Seis)
    (cb : Callback) (lockAcquired : Bool) :
    Except String (TvDatafeedLive × Option Consumer) :=
  if !lockAcquired then Except.ok (tvl, none)
  else if tvl.shutdown_in_progress then Except.ok (tvl, none)
  else if !(tvl.sat.contains_seis s) then Except.error "not listed"
  else Except.ok (tvl, some (Consumer.init s cb))

/-- Modelled from the spec: `TvDatafeedLive.del_consumer` of the absent
datafeed.py — `False` (state unchanged) on lock timeout or shutdown in
progress; a consumer whose key reference is already cleared is treated as
already removed; a raised error for an unregistered key; otherwise the
consumer is stopped (spec section 4.4). -/
def TvDatafeedLive.del_consumer (tvl : TvDatafeedLive) (c : Consumer)
    (lockAcquired : Bool) : Except String (TvDatafeedLive × Bool) :=
  if !lockAcquired then Except.ok (tvl, false)
  else if tvl.shutdown_in_progress then Except.ok (tvl, false)
  else
    match c.seis with
    | none => Except.ok (tvl, true)
    | some s =>
        if !(tvl.sat.contains_seis s) then Except.error "not listed"
        else Except.ok (tvl, true)

/-- Modelled from the spec: `TvDatafeedLive.get_hist` of the absent
datafeed.py — `False` (modelled as `none`, state unchanged) on lock timeout
or shutdown in progress, otherwise the table `fetched` obtained from the
inherited historical-fetch collaborator (spec section 4.4). -/
def TvDatafeedLive.get_hist (tvl : TvDatafeedLive) (fetched : Table)
    (lockAcquired : Bool) : Except String (TvDatafeedLive × Option Table) :=
  if !lockAcquired then Except.ok (tvl, none)
  else if tvl.shutdown_in_progress then Except.ok (tvl, none)
  else Except.ok (tvl, some fetched)

/-! Concrete fixtures used to instantiate the theorems below. -/

/-- A sample one-bar OHLCV table. -/
def tblA : Table := [[1, 2, 3, 4, 5]]

/-- A table differing from `tblA` in exactly one cell. -/
def tblB : Table := [[1, 2, 3, 4, 6]]

/-- A sample subscription key with no data seen yet. -/
def seisBTC : Seis :=
  { symbol := "BTCUSDT", exchange := "BINANCE", interval := .in_1_hour, ohlcv := none }

/-- A callback that succeeds. -/
def cbOk : Callback := fun _ _ => Except.ok ()

/-- A callback that raises. -/
def cbBad : Callback := fun _ _ => Except.error "boom"

/-- A freshly constructed consumer. -/
def consFresh : Consumer := Consumer.init seisBTC cbOk

/-- A consumer that has been stopped. -/
def consStopped : Consumer := Consumer.stop consFresh

/-- A consumer over a bounded, already full inbox. -/
def consFull : Consumer :=
  { buffer := { maxsize := 1, items := [some tblA] }
    stopped := false
    seis := some seisBTC
    callback := some cbOk
    name := "full" }

/-- A running consumer whose callback raises on its one pending item. -/
def consBad : Consumer :=
  { buffer := { maxsize := 0, items := [some tblA] }
    stopped := false
    seis := some seisBTC
    callback := some cbBad
    name := "bad" }

/-- The empty registry. -/
def satEmpty : SAT := { groups := [], trigger_quit := false }

/-- A registry whose single 1-hour group is long past due at time 10000. -/
def satPast : SAT :=
  { groups := [{ label := .in_1_hour, seises := [seisBTC], due := 100 }], trigger_quit := false }

/-- A quit registry with a group due far in the future. -/
def satQuit : SAT :=
  { groups := [{ label := .in_1_hour, seises := [seisBTC], due := 999999 }], trigger_quit := true }

/-- A coordinator with an empty registry, not shutting down. -/
def tvlFresh : TvDatafeedLive :=
  { sat := satEmpty, shutdown_in_progress := false, main_thread := false, fetch_count := 0 }

/-- A coordinator whose shutdown is in progress. -/
def tvlShutdown : TvDatafeedLive :=
  { sat := satEmpty, shutdown_in_progress := true, main_thread := false, fetch_count := 0 }

end TvDF

namespace TvDF

/-- C1: `is_new_data` returns true on the first call (no snapshot stored),
afterwards true iff the candidate table differs by value from the stored
snapshot (an identical table yields false, any value difference yields
true), and every call replaces the stored snapshot with the candidate. -/
theorem C1_is_new_data_contract (s : Seis) (t : Table) :
    (s.ohlcv = none → (s.is_new_data t).1 = true) ∧
    (∀ prev, s.ohlcv = some prev → ((s.is_new_data t).1 = true ↔ t ≠ prev)) ∧
    (s.is_new_data t).2.ohlcv = some t := by
  refine ⟨fun h => ?_, fun prev h => ?_, ?_⟩
  · simp [Seis.is_new_data, h]
  · simp [Seis.is_new_data, h]
  · cases h : s.ohlcv <;> simp [Seis.is_new_data, h]

/-- Witness for C1 on concrete tables: first sight of `tblA` is new, an
identical re-presentation is not, a one-cell change is, and the snapshot
tracks the last candidate. -/
theorem C1_is_new_data_contract_witness :
    seisBTC.ohlcv = none ∧
    (seisBTC.is_new_data tblA).1 = true ∧
    (seisBTC.is_new_data tblA).2.ohlcv = some tblA ∧
    ((seisBTC.is_new_data tblA).2.is_new_data tblA).1 = false ∧
    ((seisBTC.is_new_data tblA).2.is_new_data tblB).1 = true := by
  refine ⟨rfl, (C1_is_new_data_contract seisBTC tblA).1 rfl, ?_, ?_, ?_⟩
  · exact (C1_is_new_data_contract seisBTC tblA).2.2
  · have h := ((C1_is_new_data_contract (seisBTC.is_new_data tblA).2 tblA).2.1 tblA (by decide))
    simp only [ne_eq, not_true_eq_false, iff_false] at h
    exact Bool.not_eq_true _ |>.mp h
  · exact ((C1_is_new_data_contract (seisBTC.is_new_data tblA).2 tblB).2.1 tblA (by decide)).mpr
      (by decide)

/-- C2: `Consumer.put` never raises (it is a total function into a plain
pair): on a stopped consumer it does nothing, leaving the whole state
including the inbox unchanged; on a full inbox it drops the item with a
logged warning and leaves the state unchanged; otherwise it appends the
item to the inbox. -/
theorem C2_put_contract (c : Consumer) (d : Table) :
    (c.stopped = true → c.put d = (c, .ignoredStopped)) ∧
    (c.stopped = false → c.buffer.isFull = true → c.put d = (c, .droppedFull)) ∧
    (c.stopped = false → c.buffer.isFull = false →
      c.put d = ({ c with buffer := { c.buffer with items := c.buffer.items ++ [some d] } },
                  .enqueued)) := by
  refine ⟨fun h => ?_, fun h hf => ?_, fun h hf => ?_⟩
  · simp [Consumer.put, h]
  · simp [Consumer.put, Inbox.putWithTimeout, h, hf]
  · simp [Consumer.put, Inbox.putWithTimeout, h, hf]

/-- Witness for C2: a stopped consumer ignores the item and keeps its state;
a consumer with a full bounded inbox drops the item and keeps its state. -/
theorem C2_put_contract_witness :
    consStopped.stopped = true ∧
    consStopped.put tblA = (consStopped, .ignoredStopped) ∧
    consFull.stopped = false ∧ consFull.buffer.isFull = true ∧
    consFull.put tblB = (consFull, .droppedFull) :=
  ⟨rfl, (C2_put_contract consStopped tblA).1 rfl, rfl, rfl,
    (C2_put_contract consFull tblB).2.1 rfl rfl⟩

/-- After `stop`, the stop flag is set, on both inbox outcomes. -/
theorem Consumer.stop_sets_flag (c : Consumer) : (Consumer.stop c).stopped = true := by
  by_cases h : c.stopped = true
  · simp [Consumer.stop, h]
  · simp only [Consumer.stop, h]
    simp only [Bool.false_eq_true, if_false]
    split <;> rfl

/-- `stop` on an already stopped consumer changes nothing. -/
theorem Consumer.stop_of_stopped (c : Consumer) (h : c.stopped = true) :
    Consumer.stop c = c := by
  simp [Consumer.stop, h]

/-- C8: on every exit path of the worker loop the `finally` block leaves the
seis reference and the callback reference cleared and the stop flag set, and
on the terminated consumer `put` is a silent no-op, `stop` changes nothing,
and `del_consumer` succeeds trivially. -/
theorem C8_run_terminal_state (c : Consumer) (detach detach2 : Except String Bool)
    (d : Table) :
    (c.run detach).1.seis = none ∧
    (c.run detach).1.callback = none ∧
    (c.run detach).1.stopped = true ∧
    (c.run detach).1.put d = ((c.run detach).1, .ignoredStopped) ∧
    Consumer.stop (c.run detach).1 = (c.run detach).1 ∧
    (c.run detach).1.del_consumer detach2 = Except.ok true := by
  refine ⟨rfl, rfl, rfl, ?_, ?_, rfl⟩
  · simp [Consumer.put, Consumer.run]
  · exact Consumer.stop_of_stopped _ rfl

/-- C9: `stop` is idempotent — iterating it any positive number of times
equals one call, a second call changes no state, the flag is set after one
call, and a single call on a running consumer enqueues at most one `None`
sentinel (none at all only when a bounded inbox is full). -/
theorem C9_stop_idempotent (c : Consumer) (n : Nat) :
    Consumer.stop (Consumer.stop c) = Consumer.stop c ∧
    Consumer.stop^[n + 1] c = Consumer.stop c ∧
    (Consumer.stop c).stopped = true ∧
    (c.stopped = true → Consumer.stop c = c) ∧
    (c.stopped = false →
      (Consumer.stop c).buffer.items = c.buffer.items ++ [none] ∨
      (Consumer.stop c).buffer.items = c.buffer.items) := by
  have hidem : Consumer.stop (Consumer.stop c) = Consumer.stop c :=
    Consumer.stop_of_stopped _ (Consumer.stop_sets_flag c)
  refine ⟨hidem, ?_, Consumer.stop_sets_flag c, Consumer.stop_of_stopped c, ?_⟩
  · induction n with
    | zero => rfl
    | succ m ih =>
        rw [Function.iterate_succ_apply', ih, hidem]
  · intro h
    by_cases hf : c.buffer.isFull = true
    · right
      simp [Consumer.stop, Inbox.putWithTimeout, h, hf]
    · left
      simp [Consumer.stop, Inbox.putWithTimeout, h, hf]

/-- Witness for C9 on a freshly constructed consumer: one sentinel is
enqueued, a second `stop` is the identity, and stopping the already stopped
consumer changes nothing. -/
theorem C9_stop_idempotent_witness :
    consFresh.stopped = false ∧
    ((Consumer.stop consFresh).buffer.items = consFresh.buffer.items ++ [none] ∨
     (Consumer.stop consFresh).buffer.items = consFresh.buffer.items) ∧
    Consumer.stop (Consumer.stop consFresh) = Consumer.stop consFresh ∧
    consStopped.stopped = true ∧
    Consumer.stop consStopped = consStopped :=
  ⟨rfl, (C9_stop_idempotent consFresh 0).2.2.2.2 rfl, (C9_stop_idempotent consFresh 0).1,
   Consumer.stop_sets_flag consFresh,
   (C9_stop_idempotent consStopped 0).2.2.2.1 (Consumer.stop_sets_flag consFresh)⟩

/-- C10: `Consumer.__init__` builds the inbox as `queue.Queue()` with
maxsize 0, i.e. without a capacity bound, and `put`, `stop` and `run` keep
it so; an unbounded inbox is never full, hence the queue-full branches of
`put` and `stop` are unreachable: on a not-yet-stopped consumer every item
is enqueued (never dropped, never waiting out the enqueue timeout) and the
stop sentinel is always enqueued. -/
theorem C10_inbox_never_full (c : Consumer) (s : Seis) (cb : Callback) (d : Table)
    (detach : Except String Bool) :
    (Consumer.init s cb).buffer.maxsize = 0 ∧
    (c.buffer.maxsize = 0 →
      c.buffer.isFull = false ∧
      (c.put d).1.buffer.maxsize = 0 ∧
      (Consumer.stop c).buffer.maxsize = 0 ∧
      (c.run detach).1.buffer.maxsize = 0 ∧
      (c.stopped = false →
        c.put d = ({ c with buffer := { c.buffer with items := c.buffer.items ++ [some d] } },
                    .enqueued) ∧
        (c.put d).2 ≠ .droppedFull) ∧
      (c.stopped = false → (Consumer.stop c).buffer.items = c.buffer.items ++ [none])) := by
  refine ⟨rfl, fun h0 => ?_⟩
  have hfull : c.buffer.isFull = false := by
    simp [Inbox.isFull, h0]
  refine ⟨hfull, ?_, ?_, ?_, fun hs => ?_, fun hs => ?_⟩
  · by_cases hs : c.stopped = true <;>
      simp [Consumer.put, Inbox.putWithTimeout, hs, hfull, h0]
  · by_cases hs : c.stopped = true <;>
      simp [Consumer.stop, Inbox.putWithTimeout, hs, hfull, h0]
  · simpa [Consumer.run] using h0
  · constructor
    · simp [Consumer.put, Inbox.putWithTimeout, hs, hfull]
    · simp [Consumer.put, Inbox.putWithTimeout, hs, hfull]
  · simp [Consumer.stop, Inbox.putWithTimeout, hs, hfull]

/-- Witness for C10 on a freshly constructed consumer: the inbox is
unbounded and never full, a `put` enqueues the item, a `stop` enqueues the
sentinel. -/
theorem C10_inbox_never_full_witness :
    consFresh.buffer.maxsize = 0 ∧
    consFresh.buffer.isFull = false ∧
    consFresh.put tblA =
      ({ consFresh with
          buffer := { consFresh.buffer with items := consFresh.buffer.items ++ [some tblA] } },
        .enqueued) ∧
    (Consumer.stop consFresh).buffer.items = consFresh.buffer.items ++ [none] :=
  ⟨rfl, ((C10_inbox_never_full consFresh seisBTC cbOk tblA (Except.ok true)).2 rfl).1,
   (((C10_inbox_never_full consFresh seisBTC cbOk tblA (Except.ok true)).2 rfl).2.2.2.2.1 rfl).1,
   ((C10_inbox_never_full consFresh seisBTC cbOk tblA (Except.ok true)).2 rfl).2.2.2.2.2 rfl⟩

/-- The worker loop exits with reason `callbackError` exactly when it logs a
callback exception; in that case detachment was attempted, and a failure of
the detachment itself is additionally logged. -/
theorem Consumer.runLoop_error_spec (c : Consumer) (detach : Except String Bool) :
    ∀ items : List (Option Table),
      ((c.runLoop detach items).reason = .callbackError ↔
        .callbackException ∈ (c.runLoop detach items).log) ∧
      ((c.runLoop detach items).reason = .callbackError →
        (c.runLoop detach items).detachTried = true) ∧
      ((c.runLoop detach items).reason = .callbackError →
        ∀ e, detach = Except.error e → .cleanupError ∈ (c.runLoop detach items).log) := by
  intro items
  induction items with
  | nil => by_cases h : c.stopped = true <;> simp [Consumer.runLoop, h]
  | cons item rest ih =>
      cases item with
      | none => by_cases h : c.stopped = true <;> simp [Consumer.runLoop, h]
      | some data =>
          by_cases h : c.stopped = true
          · simp [Consumer.runLoop, h]
          · cases hs : c.seis with
            | none => simp [Consumer.runLoop, h, hs]
            | some s =>
                cases hcb : c.callback with
                | none => simp [Consumer.runLoop, h, hs, hcb]
                | some cb =>
                    cases hr : cb s data with
                    | ok u => simpa [Consumer.runLoop, h, hs, hcb, hr] using ih
                    | error e1 =>
                        cases hd : detach with
                        | ok b =>
                            simp [Consumer.runLoop, Consumer.del_consumer, h, hs, hcb, hr, hd]
                        | error e2 =>
                            simp [Consumer.runLoop, Consumer.del_consumer, h, hs, hcb, hr, hd]

/-- C7: any exception raised by the user callback is caught and logged, not
propagated (the worker returns normally); the consumer then attempts to
detach itself from its seis, a failure of the detachment is only logged, the
loop exits, and the terminal cleanup still clears both references. -/
theorem C7_callback_exception_isolated (c : Consumer) (detach : Except String Bool) :
    ((c.run detach).2.reason = .callbackError →
      .callbackException ∈ (c.run detach).2.log ∧
      (c.run detach).2.detachTried = true ∧
      (∀ e, detach = Except.error e → .cleanupError ∈ (c.run detach).2.log)) ∧
    (.callbackException ∈ (c.run detach).2.log → (c.run detach).2.reason = .callbackError) ∧
    (c.run detach).1.seis = none ∧
    (c.run detach).1.callback = none ∧
    (c.run detach).1.stopped = true := by
  have h := Consumer.runLoop_error_spec c detach c.buffer.items
  refine ⟨fun he => ⟨h.1.mp he, h.2.1 he, h.2.2 he⟩, fun hl => h.1.mpr hl, rfl, rfl, rfl⟩

/-- Witness for C7: a consumer whose callback raises on its pending item
exits with a logged callback exception, an attempted detachment whose own
failure is logged, and cleared references. -/
theorem C7_callback_exception_isolated_witness :
    (consBad.run (Except.error "fail")).2.reason = .callbackError ∧
    .callbackException ∈ (consBad.run (Except.error "fail")).2.log ∧
    (consBad.run (Except.error "fail")).2.detachTried = true ∧
    .cleanupError ∈ (consBad.run (Except.error "fail")).2.log ∧
    (consBad.run (Except.error "fail")).1.seis = none ∧
    (consBad.run (Except.error "fail")).1.callback = none := by
  have h := C7_callback_exception_isolated consBad (Except.error "fail")
  have he : (consBad.run (Except.error "fail")).2.reason = .callbackError := by
    simp [Consumer.run, Consumer.runLoop, Consumer.del_consumer, consBad, cbBad,
      seisBTC, tblA]
  exact ⟨he, (h.1 he).1, (h.1 he).2.1, (h.1 he).2.2 "fail" rfl, h.2.2.1, h.2.2.2.1⟩

/-- C3: `wait` returns false immediately on an empty registry; it returns
false whenever the quit flag is set (also when set from another thread
during a blocked wait, since the returned value is computed from the state
at the moment the call unblocks); otherwise, once the globally soonest due
time has passed, it returns true. -/
theorem C3_wait_contract (sat : SAT) (now : Nat) :
    (sat.groups = [] → sat.wait now = some false) ∧
    (sat.trigger_quit = true → sat.wait now = some false) ∧
    (sat.trigger_quit = false → ∀ d, sat.next_trigger_dt = some d → d ≤ now →
      sat.wait now = some true) := by
  refine ⟨fun h => ?_, fun h => ?_, fun hq d hd hle => ?_⟩
  · by_cases hq : sat.trigger_quit = true <;>
      simp [SAT.wait, SAT.next_trigger_dt, h, hq]
  · simp [SAT.wait, h]
  · simp [SAT.wait, hq, hd, hle]

/-- Witness for C3: the empty registry answers false at once, a quit
registry answers false even with a far-future due time, and a registry due
long ago answers true. -/
theorem C3_wait_contract_witness :
    satEmpty.groups = [] ∧ satEmpty.wait 0 = some false ∧
    satQuit.trigger_quit = true ∧ satQuit.wait 0 = some false ∧
    satPast.trigger_quit = false ∧ satPast.next_trigger_dt = some 100 ∧
    satPast.wait 10000 = some true :=
  ⟨rfl, (C3_wait_contract satEmpty 0).1 rfl, rfl, (C3_wait_contract satQuit 0).2.1 rfl,
   rfl, by decide, (C3_wait_contract satPast 10000).2.2 rfl 100 (by decide) (by decide)⟩

/-- C4: `get_expired` returns exactly the interval-labels whose due time is
not later than `now`; each returned label has its due time advanced by
exactly one interval length computed from its previous due time (never from
`now`), the others are untouched; and a label just advanced is returned by a
subsequent call only once its new due time has passed. -/
theorem C4_get_expired_contract (sat : SAT) (now now2 : Nat) (l : Interval) :
    (l ∈ (sat.get_expired now).1 ↔ ∃ g ∈ sat.groups, g.label = l ∧ g.due ≤ now) ∧
    (∀ g ∈ sat.groups, g.due ≤ now →
      { g with due := g.due + interval_len g.label } ∈ (sat.get_expired now).2.groups) ∧
    (∀ g ∈ sat.groups, ¬(g.due ≤ now) → g ∈ (sat.get_expired now).2.groups) ∧
    (∀ g : SATGroup, sat.groups = [g] → g.due ≤ now →
      (sat.get_expired now).2.groups = [{ g with due := g.due + interval_len g.label }] ∧
      ((sat.get_expired now).2.get_expired now2).1 =
        (if g.due + interval_len g.label ≤ now2 then [g.label] else [])) := by
  refine ⟨?_, fun g hg hd => ?_, fun g hg hd => ?_, fun g hg hd => ⟨?_, ?_⟩⟩
  · simp only [SAT.get_expired, List.mem_map, List.mem_filter, decide_eq_true_eq]
    constructor
    · rintro ⟨g, ⟨hg, hd⟩, hl⟩
      exact ⟨g, hg, hl, hd⟩
    · rintro ⟨g, hg, hl, hd⟩
      exact ⟨g, ⟨hg, hd⟩, hl⟩
  · have hf : (fun g : SATGroup =>
        if g.due ≤ now then { g with due := g.due + interval_len g.label } else g) g =
        { g with due := g.due + interval_len g.label } := by simp [hd]
    simp only [SAT.get_expired]
    exact hf ▸ List.mem_map_of_mem _ hg
  · have hf : (fun g : SATGroup =>
        if g.due ≤ now then { g with due := g.due + interval_len g.label } else g) g = g := by
      simp [hd]
    simp only [SAT.get_expired]
    exact hf ▸ List.mem_map_of_mem _ hg
  · simp [SAT.get_expired, hg, hd]
  · by_cases h2 : g.due + interval_len g.label ≤ now2 <;>
      simp [SAT.get_expired, hg, hd, h2]

/-- Witness for C4: a 1-hour group due at 100 is expired at 10000 and its
due time becomes 3700 = 100 + 3600 (computed from the previous due time,
not from 10000); it is not returned again at 2000 but is returned at
5000. -/
theorem C4_get_expired_contract_witness :
    (Interval.in_1_hour ∈ (satPast.get_expired 10000).1) ∧
    (satPast.get_expired 10000).2.groups =
      [{ label := .in_1_hour, seises := [seisBTC], due := 3700 }] ∧
    ((satPast.get_expired 10000).2.get_expired 2000).1 = [] ∧
    ((satPast.get_expired 10000).2.get_expired 5000).1 = [.in_1_hour] := by
  have h1 := (C4_get_expired_contract satPast 10000 2000 .in_1_hour).2.2.2
    { label := .in_1_hour, seises := [seisBTC], due := 100 } rfl (by decide)
  have h3 := (C4_get_expired_contract satPast 10000 2000 .in_1_hour).1.mpr
    ⟨{ label := .in_1_hour, seises := [seisBTC], due := 100 }, by simp [satPast], rfl,
      by decide⟩
  refine ⟨h3, ?_, by decide, by decide⟩
  simpa [interval_len] using h1.1

/-- C6: when the bounded lock acquisition fails or a shutdown is in
progress, every coordinator mutator — `new_seis` (on a listed symbol),
`del_seis`, `new_consumer`, `del_consumer` and `get_hist` — returns its
false value inside `Except.ok` (so no exception is raised) with the
coordinator state unchanged. -/
theorem C6_mutator_guards (tvl : TvDatafeedLive) (sym exch : String) (iv : Interval)
    (s : Seis) (c : Consumer) (cb : Callback) (now : Nat) (seed fetched : Table)
    (lockAcquired : Bool)
    (h : lockAcquired = false ∨ tvl.shutdown_in_progress = true) :
    tvl.new_seis sym exch iv true lockAcquired now seed = Except.ok (tvl, .fail) ∧
    tvl.del_seis s lockAcquired = Except.ok (tvl, false) ∧
    tvl.new_consumer s cb lockAcquired = Except.ok (tvl, none) ∧
    tvl.del_consumer c lockAcquired = Except.ok (tvl, false) ∧
    tvl.get_hist fetched lockAcquired = Except.ok (tvl, none) := by
  rcases h with h | h
  · subst h
    simp [TvDatafeedLive.new_seis, TvDatafeedLive.del_seis, TvDatafeedLive.new_consumer,
      TvDatafeedLive.del_consumer, TvDatafeedLive.get_hist]
  · cases lockAcquired <;>
      simp [TvDatafeedLive.new_seis, TvDatafeedLive.del_seis, TvDatafeedLive.new_consumer,
        TvDatafeedLive.del_consumer, TvDatafeedLive.get_hist, h]

/-- Witness for C6: every mutator of a coordinator in shutdown returns its
false value with the state unchanged, and a lock-acquisition failure does
the same on a healthy coordinator. -/
theorem C6_mutator_guards_witness :
    tvlShutdown.shutdown_in_progress = true ∧
    tvlShutdown.new_seis "BTCUSDT" "BINANCE" .in_1_hour true true 0 tblA =
      Except.ok (tvlShutdown, .fail) ∧
    tvlShutdown.del_seis seisBTC true = Except.ok (tvlShutdown, false) ∧
    tvlShutdown.new_consumer seisBTC cbOk true = Except.ok (tvlShutdown, none) ∧
    tvlShutdown.del_consumer consFresh true = Except.ok (tvlShutdown, false) ∧
    tvlShutdown.get_hist tblA true = Except.ok (tvlShutdown, none) ∧
    tvlFresh.new_seis "BTCUSDT" "BINANCE" .in_1_hour true false 0 tblA =
      Except.ok (tvlFresh, .fail) := by
  have h1 := C6_mutator_guards tvlShutdown "BTCUSDT" "BINANCE" .in_1_hour seisBTC
    consFresh cbOk 0 tblA tblA true (Or.inr rfl)
  have h2 := C6_mutator_guards tvlFresh "BTCUSDT" "BINANCE" .in_1_hour seisBTC
    consFresh cbOk 0 tblA tblA false (Or.inl rfl)
  exact ⟨rfl, h1.1, h1.2.1, h1.2.2.1, h1.2.2.2.1, h1.2.2.2.2, h2.1⟩

/-- Appending a key to groups none of whose members satisfy `p` makes the
new key the unique `find?` hit, provided some group carries its label. -/
theorem append_seises_find_aux (s : Seis) (p : Seis → Bool) (hps : p s = true) :
    ∀ G : List SATGroup,
      (G.map SATGroup.seises).flatten.find? p = none →
      G.any (fun g => decide (g.label = s.interval)) = true →
      (((G.map (fun g => if g.label = s.interval
          then { g with seises := g.seises ++ [s] } else g)).map SATGroup.seises).flatten.find? p
        = some s) := by
  intro G
  induction G with
  | nil =>
      intro _ hany
      simp at hany
  | cons g gs ih =>
      intro hnone hany
      simp only [List.map_cons, List.flatten_cons, List.find?_append] at hnone ⊢
      have hnone1 : g.seises.find? p = none := by
        cases hx : g.seises.find? p <;> simp [hx] at hnone ⊢
      have hnone2 : ((gs.map SATGroup.seises).flatten.find? p) = none := by
        cases hx : ((gs.map SATGroup.seises).flatten.find? p) <;> simp [hx] at hnone ⊢
      by_cases hl : g.label = s.interval
      · simp [hl, List.find?_append, hnone1, hps]
      · have hany2 : gs.any (fun g => decide (g.label = s.interval)) = true := by
          simpa [hl] using hany
        rw [if_neg hl, hnone1]
        simpa using ih hnone2 hany2

/-- Appending a key to groups none of whose members satisfy `p` leaves
exactly one `p`-element, provided exactly one group carries its label. -/
theorem append_seises_count_aux (s : Seis) (p : Seis → Bool) (hps : p s = true) :
    ∀ G : List SATGroup,
      (G.map SATGroup.seises).flatten.countP p = 0 →
      G.countP (fun g => decide (g.label = s.interval)) ≤ 1 →
      G.any (fun g => decide (g.label = s.interval)) = true →
      (((G.map (fun g => if g.label = s.interval
          then { g with seises := g.seises ++ [s] } else g)).map SATGroup.seises).flatten.countP p
        = 1) := by
  intro G
  induction G with
  | nil =>
      intro _ _ hany
      simp at hany
  | cons g gs ih =>
      intro h0 hle hany
      simp only [List.map_cons, List.flatten_cons, List.countP_append] at h0 ⊢
      have h0a : g.seises.countP p = 0 := by omega
      have h0b : ((gs.map SATGroup.seises).flatten.countP p) = 0 := by omega
      by_cases hl : g.label = s.interval
      · have hgs0 : gs.countP (fun g => decide (g.label = s.interval)) = 0 := by
          rw [List.countP_cons] at hle
          have hd : decide (g.label = s.interval) = true := by simp [hl]
          rw [if_pos hd] at hle
          omega
        have hid : gs.map (fun g => if g.label = s.interval
            then { g with seises := g.seises ++ [s] } else g) = gs := by
          conv_rhs => rw [← List.map_id gs]
          apply List.map_congr_left
          intro x hx
          have hx0 := List.countP_eq_zero.mp hgs0 x hx
          simp only [decide_eq_true_eq] at hx0
          simp [hx0]
        simp [hl, hid, List.countP_append, h0a, h0b, hps]
      · have hany2 : gs.any (fun g => decide (g.label = s.interval)) = true := by
          simpa [hl] using hany
        have hle2 : gs.countP (fun g => decide (g.label = s.interval)) ≤ 1 := by
          rw [List.countP_cons] at hle
          omega
        rw [if_neg hl, h0a, ih h0b hle2 hany2]

/-- `find?` over the registry after appending a fresh key returns exactly
the appended key. -/
theorem SAT.append_find_fresh (sat : SAT) (s : Seis) (dt : Nat) (p : Seis → Bool)
    (hnone : sat.allSeises.find? p = none) (hps : p s = true) :
    (sat.append s dt).allSeises.find? p = some s := by
  unfold SAT.allSeises at hnone ⊢
  unfold SAT.append
  by_cases hany : sat.groups.any (fun g => decide (g.label = s.interval)) = true
  · simp only [hany, if_true]
    exact append_seises_find_aux s p hps sat.groups hnone hany
  · simp only [hany, if_false, Bool.false_eq_true]
    simp [List.map_append, List.flatten_append, List.find?_append, hnone, hps]

/-- The registry after appending a fresh key holds exactly one `p`-key. -/
theorem SAT.append_count_fresh (sat : SAT) (s : Seis) (dt : Nat) (p : Seis → Bool)
    (h0 : sat.allSeises.countP p = 0) (hps : p s = true)
    (hlbl : sat.groups.countP (fun g => decide (g.label = s.interval)) ≤ 1) :
    (sat.append s dt).allSeises.countP p = 1 := by
  unfold SAT.allSeises at h0 ⊢
  unfold SAT.append
  by_cases hany : sat.groups.any (fun g => decide (g.label = s.interval)) = true
  · simp only [hany, if_true]
    exact append_seises_count_aux s p hps sat.groups h0 hlbl hany
  · simp only [hany, if_false, Bool.false_eq_true]
    simp [List.map_append, List.flatten_append, List.countP_append, h0, hps]

/-- C5: a second `new_seis` with identical arguments returns the very key
instance produced by the first call, changes nothing in the coordinator
(in particular performs no second historical fetch), and the registry holds
exactly one entry for the key. -/
theorem C5_new_seis_idempotent (tvl : TvDatafeedLive) (sym exch : String) (iv : Interval)
    (now now2 : Nat) (seed seed2 : Table)
    (hfresh : tvl.sat.find_seis sym exch iv = none)
    (hshut : tvl.shutdown_in_progress = false)
    (hlbl : tvl.sat.groups.countP (fun g => decide (g.label = iv)) ≤ 1) :
    ∃ tvl1 s1,
      tvl.new_seis sym exch iv true true now seed = Except.ok (tvl1, .seis s1) ∧
      tvl1.new_seis sym exch iv true true now2 seed2 = Except.ok (tvl1, .seis s1) ∧
      tvl1.sat.allSeises.countP (fun x => x.matches_key sym exch iv) = 1 ∧
      tvl1.fetch_count = tvl.fetch_count + 1 := by
  have hps : Seis.matches_key
      { symbol := sym, exchange := exch, interval := iv, ohlcv := some seed } sym exch iv
      = true := by
    simp [Seis.matches_key]
  have hfind2 : (tvl.sat.append
      { symbol := sym, exchange := exch, interval := iv, ohlcv := some seed }
      now).find_seis sym exch iv = some
      { symbol := sym, exchange := exch, interval := iv, ohlcv := some seed } := by
    unfold SAT.find_seis at hfresh ⊢
    exact SAT.append_find_fresh _ _ _ _ hfresh hps
  have h0 : tvl.sat.allSeises.countP (fun x => x.matches_key sym exch iv) = 0 := by
    unfold SAT.find_seis at hfresh
    rw [List.countP_eq_zero]
    intro a ha
    simpa using List.find?_eq_none.mp hfresh a ha
  refine ⟨{ tvl with
      sat := tvl.sat.append { symbol := sym, exchange := exch, interval := iv,
                              ohlcv := some seed } now,
      fetch_count := tvl.fetch_count + 1, main_thread := true },
    { symbol := sym, exchange := exch, interval := iv, ohlcv := some seed },
    ?_, ?_, ?_, rfl⟩
  · simp [TvDatafeedLive.new_seis, hshut, hfresh]
  · simp [TvDatafeedLive.new_seis, hshut, hfind2]
  · exact SAT.append_count_fresh _ _ _ _ h0 hps hlbl

/-- Witness for C5: on the empty coordinator, registering BTCUSDT/BINANCE
at 1 hour twice returns the same instance, fetches once, and leaves one
registry entry. -/
theorem C5_new_seis_idempotent_witness :
    ∃ tvl1 s1,
      tvlFresh.new_seis "BTCUSDT" "BINANCE" .in_1_hour true true 1000 tblA =
        Except.ok (tvl1, .seis s1) ∧
      tvl1.new_seis "BTCUSDT" "BINANCE" .in_1_hour true true 2000 tblB =
        Except.ok (tvl1, .seis s1) ∧
      tvl1.sat.allSeises.countP
        (fun x => x.matches_key "BTCUSDT" "BINANCE" .in_1_hour) = 1 ∧
      tvl1.fetch_count = tvlFresh.fetch_count + 1 :=
  C5_new_seis_idempotent tvlFresh "BTCUSDT" "BINANCE" .in_1_hour 1000 2000 tblA tblB
    (by decide) rfl (by decide)

end TvDF
